import Mathlib

/-!
Shallow embedding of gsound/gsound-context.c (GNOME gsound, a thin GObject
binding over libcanberra).

Modelling conventions:

* libcanberra (an external collaborator, not part of this repository) is
  modelled as an oracle `Env` supplying the status codes its entry points
  return, together with the `ca_strerror` message function and the
  process-wide application identity read by initialization.
* A `ca_proplist` is the ordered list of (key, value) pairs that were
  successfully added to it.
* `GError` out-parameters are modelled as an `Option GErr` component of each
  result record (`none` = the error location was left unset).
* A variadic attribute list (a `va_list`) is a `List (Option String)` of the
  pointers read by `va_arg`; `none` is a NULL pointer.  Well-formed calls end
  with a `none` terminator; an exhausted list is read as NULL.
* Native context-level calls made by an operation are recorded as a trace
  (`List NativeCall`), so that "never invokes the native submission entry
  point" and "no completion callback is registered" are statable.
* The GTask of an asynchronous play is modelled by the list of resolutions
  (`g_task_return_boolean` / `g_task_return_new_error` calls) delivered to it.
* Pointer identity of a `GCancellable` is a `Nat` (its address); a NULL
  cancellable is `none`.
-/

/-- The status code `CA_SUCCESS` from canberra.h. -/
def CA_SUCCESS : Int := 0

/-- The status code `CA_ERROR_INVALID` from canberra.h. -/
def CA_ERROR_INVALID : Int := -2

/-- The attribute key `CA_PROP_APPLICATION_NAME` from canberra.h. -/
def CA_PROP_APPLICATION_NAME : String := "application.name"

/-- The attribute key `CA_PROP_APPLICATION_ID` from canberra.h. -/
def CA_PROP_APPLICATION_ID : String := "application.id"

/-- A populated GError: the domain is always GSOUND_ERROR, so only the code
and the human-readable message are modelled. -/
structure GErr where
  code : Int
  message : String
deriving Repr, DecidableEq

/-- Oracle for the external libcanberra library and the process-wide
application identity: the status codes its entry points will return on this
run, and `ca_strerror`. -/
structure Env where
  context_create_res : Int
  proplist_create_res : Int
  proplist_sets_res : String → String → Int
  change_props_res : Int
  play_full_res : Int
  cache_res : Int
  strerror : Int → String
  application_name : String
  application_id : Option String

/-- A native property list: the (key, value) pairs successfully added. -/
abbrev CaProplist := List (String × String)

/-- Context-level native calls an operation can make (the submission and
lifecycle entry points of libcanberra named by the claims). -/
inductive NativeCall where
  | context_create
  | context_destroy
  | context_change_props_full (pl : CaProplist)
  | context_play_full (id : Nat) (pl : CaProplist) (has_callback : Bool)
  | context_cache_full (pl : CaProplist)
  | context_cancel (id : Nat)
deriving Repr, DecidableEq

/-- The state of a GSoundContext: whether the `ca` field holds a live
native engine handle (`struct _GSoundContext`, gsound-context.c:112). -/
structure GSoundContext where
  ca : Bool
deriving Repr, DecidableEq

/-- Resolution delivered to a GTask: `g_task_return_boolean (task, TRUE)` or
`g_task_return_new_error (task, GSOUND_ERROR, code, msg)`. -/
inductive TaskResolution where
  | success
  | failure (code : Int) (message : String)
deriving Repr, DecidableEq

/-- GLib g_direct_hash: the pointer value itself, truncated to guint
(32 bits).  A NULL pointer hashes to 0. -/
def g_direct_hash : Option Nat → Nat
  | none => 0
  | some p => p % 2 ^ 32

/-- test_return (gsound-context.c:130): success gives TRUE with the error
location untouched; any other code gives FALSE and sets the error to that
code with its `ca_strerror` message. -/
def test_return (code : Int) (strerror : Int → String) : Bool × Option GErr :=
  if code = CA_SUCCESS then (true, none)
  else (false, some ⟨code, strerror code⟩)

/-- ca_proplist_sets of the external library: on success the pair is
appended to the property list, on failure the list is unchanged; either way
the status code is returned. -/
def ca_proplist_sets (env : Env) (pl : CaProplist) (k v : String) :
    Int × CaProplist :=
  let res := env.proplist_sets_res k v
  if res = CA_SUCCESS then (res, pl ++ [(k, v)]) else (res, pl)

/-- hash_table_to_prop_list (gsound-context.c:140): iterates the hash table
(modelled as the list of its entries in iteration order) and adds each entry,
discarding every `ca_proplist_sets` status code; it returns nothing. -/
def hash_table_to_prop_list (env : Env) (ht : List (String × String))
    (pl : CaProplist) : CaProplist :=
  ht.foldl (fun acc kv => (ca_proplist_sets env acc kv.1 kv.2).2) pl

/-- var_args_to_prop_list (gsound-context.c:155): reads (key, value) pairs
from the variadic region until a NULL key; a NULL (or exhausted) value slot
after a key yields CA_ERROR_INVALID, and a failing `ca_proplist_sets`
status is propagated.  Returns the status code and the property list built
so far. -/
def var_args_to_prop_list (env : Env) :
    List (Option String) → CaProplist → Int × CaProplist
  | [], pl => (CA_SUCCESS, pl)
  | none :: _, pl => (CA_SUCCESS, pl)
  | some _ :: [], pl => (CA_ERROR_INVALID, pl)
  | some _ :: none :: _, pl => (CA_ERROR_INVALID, pl)
  | some k :: some v :: rest, pl =>
      let r := ca_proplist_sets env pl k v
      if r.1 ≠ CA_SUCCESS then (r.1, r.2)
      else var_args_to_prop_list env rest r.2

/-- Result of a synchronous operation: the gboolean return, the GError out
parameter, and the context-level native calls made. -/
structure OpResult where
  ret : Bool
  error : Option GErr
  calls : List NativeCall
deriving Repr, DecidableEq

/-- Result of a fire-and-forget play: additionally records whether a
cancellation listener was connected to the caller's cancellable. -/
structure PlayResult where
  ret : Bool
  error : Option GErr
  calls : List NativeCall
  connected : Bool
deriving Repr, DecidableEq

/-- Result of an asynchronous play call: the resolutions delivered to the
GTask so far (empty while the operation is still pending on the native
callback), the native calls made, and whether a cancellation listener was
connected. -/
structure AsyncResult where
  resolutions : List TaskResolution
  calls : List NativeCall
  connected : Bool
deriving Repr, DecidableEq

/-- Result of initialization: the gboolean return, the GError out parameter,
the resulting context state, and the native calls made. -/
structure InitResult where
  ret : Bool
  error : Option GErr
  state : GSoundContext
  calls : List NativeCall
deriving Repr, DecidableEq

/-- gsound_context_change_attrs (gsound-context.c:267): creates a property
list (failure reported through test_return), fills it from the variadic
arguments with the status of var_args_to_prop_list DISCARDED (line 282),
then always commits via ca_context_change_props_full. -/
def gsound_context_change_attrs (env : Env) (_self : GSoundContext)
    (args : List (Option String)) : OpResult :=
  if env.proplist_create_res ≠ CA_SUCCESS then
    let t := test_return env.proplist_create_res env.strerror
    ⟨t.1, t.2, []⟩
  else
    let pl := (var_args_to_prop_list env args []).2
    let res := env.change_props_res
    let t := test_return res env.strerror
    ⟨t.1, t.2, [NativeCall.context_change_props_full pl]⟩

/-- gsound_context_change_attrsv (gsound-context.c:300): creates a property
list, fills it from the hash table (no status to check), and always commits
via ca_context_change_props_full. -/
def gsound_context_change_attrsv (env : Env) (_self : GSoundContext)
    (attrs : List (String × String)) : OpResult :=
  if env.proplist_create_res ≠ CA_SUCCESS then
    let t := test_return env.proplist_create_res env.strerror
    ⟨t.1, t.2, []⟩
  else
    let pl := hash_table_to_prop_list env attrs []
    let res := env.change_props_res
    let t := test_return res env.strerror
    ⟨t.1, t.2, [NativeCall.context_change_props_full pl]⟩

/-- gsound_context_play_simple (gsound-context.c:332): builds the property
list from the variadic arguments (status DISCARDED, line 348), submits via
ca_context_play_full with id g_direct_hash(cancellable) and NO completion
callback, connects the cancellation listener if a cancellable was given,
and returns test_return of the submission status. -/
def gsound_context_play_simple (env : Env) (_self : GSoundContext)
    (cancellable : Option Nat) (args : List (Option String)) : PlayResult :=
  if env.proplist_create_res ≠ CA_SUCCESS then
    let t := test_return env.proplist_create_res env.strerror
    ⟨t.1, t.2, [], false⟩
  else
    let pl := (var_args_to_prop_list env args []).2
    let res := env.play_full_res
    let t := test_return res env.strerror
    ⟨t.1, t.2,
      [NativeCall.context_play_full (g_direct_hash cancellable) pl false],
      cancellable.isSome⟩

/-- gsound_context_play_simplev (gsound-context.c:377): as play_simple but
the property list comes from a hash table. -/
def gsound_context_play_simplev (env : Env) (_self : GSoundContext)
    (attrs : List (String × String)) (cancellable : Option Nat) : PlayResult :=
  if env.proplist_create_res ≠ CA_SUCCESS then
    let t := test_return env.proplist_create_res env.strerror
    ⟨t.1, t.2, [], false⟩
  else
    let pl := hash_table_to_prop_list env attrs []
    let res := env.play_full_res
    let t := test_return res env.strerror
    ⟨t.1, t.2,
      [NativeCall.context_play_full (g_direct_hash cancellable) pl false],
      cancellable.isSome⟩

/-- gsound_context_play_full (gsound-context.c:415): creates a GTask; a
proplist-creation failure resolves the task immediately with that error;
otherwise builds the property list from the variadic arguments (status
DISCARDED, line 439), submits via ca_context_play_full with id
g_direct_hash(cancellable) and on_ca_play_full_finished as completion
callback, connects the cancellation listener if a cancellable was given,
and resolves the task immediately only when submission itself failed. -/
def gsound_context_play_full (env : Env) (_self : GSoundContext)
    (cancellable : Option Nat) (args : List (Option String)) : AsyncResult :=
  if env.proplist_create_res ≠ CA_SUCCESS then
    ⟨[TaskResolution.failure env.proplist_create_res
        (env.strerror env.proplist_create_res)], [], false⟩
  else
    let pl := (var_args_to_prop_list env args []).2
    let res := env.play_full_res
    let calls :=
      [NativeCall.context_play_full (g_direct_hash cancellable) pl true]
    if res ≠ CA_SUCCESS then
      ⟨[TaskResolution.failure res (env.strerror res)], calls,
        cancellable.isSome⟩
    else
      ⟨[], calls, cancellable.isSome⟩

/-- gsound_context_play_fullv (gsound-context.c:473): as play_full but the
property list comes from a hash table. -/
def gsound_context_play_fullv (env : Env) (_self : GSoundContext)
    (attrs : List (String × String)) (cancellable : Option Nat) : AsyncResult :=
  if env.proplist_create_res ≠ CA_SUCCESS then
    ⟨[TaskResolution.failure env.proplist_create_res
        (env.strerror env.proplist_create_res)], [], false⟩
  else
    let pl := hash_table_to_prop_list env attrs []
    let res := env.play_full_res
    let calls :=
      [NativeCall.context_play_full (g_direct_hash cancellable) pl true]
    if res ≠ CA_SUCCESS then
      ⟨[TaskResolution.failure res (env.strerror res)], calls,
        cancellable.isSome⟩
    else
      ⟨[], calls, cancellable.isSome⟩

/-- on_ca_play_full_finished (gsound-context.c:180): the native completion
callback resolves the task exactly once, with TRUE on CA_SUCCESS and
otherwise with a new GSOUND_ERROR of that code and its ca_strerror text.
The returned list is the sequence of resolutions it delivers. -/
def on_ca_play_full_finished (strerror : Int → String) (error_code : Int) :
    List TaskResolution :=
  if error_code ≠ CA_SUCCESS then
    [TaskResolution.failure error_code (strerror error_code)]
  else
    [TaskResolution.success]

/-- on_cancellable_cancelled (gsound-context.c:202): forwards a cancel
request for token g_direct_hash(cancellable) to the native engine and
delivers no task resolution of its own.  The cancellable here is never
NULL (the listener is only connected when one was supplied). -/
def on_cancellable_cancelled (_self : GSoundContext) (cancellable : Nat) :
    List NativeCall × List TaskResolution :=
  ([NativeCall.context_cancel (g_direct_hash (some cancellable))], [])

/-- g_task_propagate_boolean: a task resolved with TRUE propagates success;
a task resolved with an error propagates FALSE and moves the error to the
caller's error location. -/
def g_task_propagate_boolean : TaskResolution → Bool × Option GErr
  | TaskResolution.success => (true, none)
  | TaskResolution.failure c m => (false, some ⟨c, m⟩)

/-- gsound_context_play_full_finish (gsound-context.c:527): extracts the
task's resolution via g_task_propagate_boolean. -/
def gsound_context_play_full_finish (r : TaskResolution) : Bool × Option GErr :=
  g_task_propagate_boolean r

/-- gsound_context_cache (gsound-context.c:545): builds the property list
from the variadic arguments (status DISCARDED, line 560) and always submits
via ca_context_cache_full. -/
def gsound_context_cache (env : Env) (_self : GSoundContext)
    (args : List (Option String)) : OpResult :=
  if env.proplist_create_res ≠ CA_SUCCESS then
    let t := test_return env.proplist_create_res env.strerror
    ⟨t.1, t.2, []⟩
  else
    let pl := (var_args_to_prop_list env args []).2
    let res := env.cache_res
    let t := test_return res env.strerror
    ⟨t.1, t.2, [NativeCall.context_cache_full pl]⟩

/-- gsound_context_cachev (gsound-context.c:580): as cache but the property
list comes from a hash table. -/
def gsound_context_cachev (env : Env) (_self : GSoundContext)
    (attrs : List (String × String)) : OpResult :=
  if env.proplist_create_res ≠ CA_SUCCESS then
    let t := test_return env.proplist_create_res env.strerror
    ⟨t.1, t.2, []⟩
  else
    let pl := hash_table_to_prop_list env attrs []
    let res := env.cache_res
    let t := test_return res env.strerror
    ⟨t.1, t.2, [NativeCall.context_cache_full pl]⟩

/-- gsound_context_real_init (gsound-context.c:600): when a live handle
exists, returns TRUE immediately.  Otherwise creates the handle (failure
reported through test_return and FALSE returned); on success builds the
default property list (application name, and application id when a default
GApplication is registered) and commits it; when that commit fails,
test_return still sets the error, the just-created handle is destroyed,
and TRUE is returned regardless. -/
def gsound_context_real_init (env : Env) (self : GSoundContext) : InitResult :=
  if self.ca then ⟨true, none, self, []⟩
  else
    let success := env.context_create_res
    if success ≠ CA_SUCCESS then
      ⟨false, some ⟨success, env.strerror success⟩, self,
        [NativeCall.context_create]⟩
    else
      let pl0 := (ca_proplist_sets env [] CA_PROP_APPLICATION_NAME
        env.application_name).2
      let pl := match env.application_id with
        | some appid => (ca_proplist_sets env pl0 CA_PROP_APPLICATION_ID
            appid).2
        | none => pl0
      let success2 := env.change_props_res
      if success2 ≠ CA_SUCCESS then
        ⟨true, some ⟨success2, env.strerror success2⟩, ⟨false⟩,
          [NativeCall.context_create,
           NativeCall.context_change_props_full pl,
           NativeCall.context_destroy]⟩
      else
        ⟨true, none, ⟨true⟩,
          [NativeCall.context_create,
           NativeCall.context_change_props_full pl]⟩

/-- First play-submission token occurring in a native-call trace. -/
def submitted_play_id : List NativeCall → Option Nat
  | [] => none
  | NativeCall.context_play_full id _ _ :: _ => some id
  | _ :: rest => submitted_play_id rest

/-- Whether a trace contains a play submission carrying a completion
callback. -/
def has_callback_submission (calls : List NativeCall) : Prop :=
  ∃ id pl, NativeCall.context_play_full id pl true ∈ calls

/-- A concrete environment in which every native call succeeds. -/
def envOK : Env :=
  ⟨0, 0, fun _ _ => 0, 0, 0, 0, fun _ => "no error", "app", none⟩

/-- A concrete environment in which the default-attribute commit fails with
code -3 while everything else succeeds. -/
def envCommitFail : Env :=
  ⟨0, 0, fun _ _ => 0, -3, 0, 0, fun _ => "engine says no", "app", none⟩

/-- A concrete environment in which engine-handle creation fails with
code -4 (CA_ERROR_OOM). -/
def envCreateFail : Env :=
  ⟨-4, 0, fun _ _ => 0, 0, 0, 0, fun _ => "oom", "app", none⟩

/-- A concrete environment in which every ca_proplist_sets call fails with
CA_ERROR_INVALID while everything else succeeds. -/
def envSetsFail : Env :=
  ⟨0, 0, fun _ _ => -2, 0, 0, 0, fun _ => "invalid", "app", none⟩

/-- A context with no live engine handle. -/
def ctxNoHandle : GSoundContext := ⟨false⟩

/-- A context holding a live engine handle. -/
def ctxLive : GSoundContext := ⟨true⟩

/-- Claim C1 (code bug).  The claim (and spec) say a variadic attribute
list with a key followed by a NULL value fails with a local construction
error and never reaches the native submission entry point.  The code does
compute CA_ERROR_INVALID in var_args_to_prop_list, but every caller
(change_attrs, play_simple, play_full, cache) discards that status and
invokes the native entry point anyway with the partial property list. -/
theorem C1_missing_value_still_submitted :
    var_args_to_prop_list envOK [some "media.filename", none] [] =
      (CA_ERROR_INVALID, []) ∧
    gsound_context_change_attrs envOK ctxNoHandle
      [some "media.filename", none] =
      ⟨true, none, [NativeCall.context_change_props_full []]⟩ ∧
    gsound_context_play_simple envOK ctxNoHandle none
      [some "media.filename", none] =
      ⟨true, none, [NativeCall.context_play_full 0 [] false], false⟩ ∧
    gsound_context_play_full envOK ctxNoHandle none
      [some "media.filename", none] =
      ⟨[], [NativeCall.context_play_full 0 [] true], false⟩ ∧
    gsound_context_cache envOK ctxNoHandle [some "media.filename", none] =
      ⟨true, none, [NativeCall.context_cache_full []]⟩ := by
  decide

/-- Claim C2 (counterexample).  In an environment where the engine handle
is created successfully but the default-attribute commit fails,
initialization returns TRUE yet the error output is NOT left unset:
test_return populates it with the commit failure. -/
theorem C2_error_output_is_set :
    (gsound_context_real_init envCommitFail ctxNoHandle).ret = true ∧
    (gsound_context_real_init envCommitFail ctxNoHandle).error ≠ none := by
  decide

/-- Claim C2 (amended).  If the engine handle was created successfully but
the subsequent commit of the default attributes fails, initialization still
reports success (returns TRUE), but the failure IS written to the error
output: the error is set to the native commit code with its strerror
message even though the return value signals success. -/
theorem C2_commit_failure_success_with_error_set (env : Env)
    (self : GSoundContext) (h1 : self.ca = false)
    (h2 : env.context_create_res = CA_SUCCESS)
    (h3 : env.change_props_res ≠ CA_SUCCESS) :
    (gsound_context_real_init env self).ret = true ∧
    (gsound_context_real_init env self).error =
      some ⟨env.change_props_res, env.strerror env.change_props_res⟩ := by
  simp [gsound_context_real_init, h1, h2, h3]

/-- Claim C2 witness: the amended statement at a concrete input. -/
theorem C2_commit_failure_success_with_error_set_witness :
    (gsound_context_real_init envCommitFail ctxNoHandle).ret = true ∧
    (gsound_context_real_init envCommitFail ctxNoHandle).error =
      some ⟨envCommitFail.change_props_res,
        envCommitFail.strerror envCommitFail.change_props_res⟩ :=
  C2_commit_failure_success_with_error_set envCommitFail ctxNoHandle rfl rfl
    (by decide)

/-- Claim C3.  If the default-attribute commit fails after the engine
handle was created, initialization destroys the just-created handle and
still returns TRUE, so a successful return does not guarantee a live
engine handle in the resulting state. -/
theorem C3_success_without_live_handle (env : Env) (self : GSoundContext)
    (h1 : self.ca = false) (h2 : env.context_create_res = CA_SUCCESS)
    (h3 : env.change_props_res ≠ CA_SUCCESS) :
    (gsound_context_real_init env self).ret = true ∧
    (gsound_context_real_init env self).state.ca = false ∧
    NativeCall.context_destroy ∈ (gsound_context_real_init env self).calls := by
  simp [gsound_context_real_init, h1, h2, h3]

/-- Claim C3 witness: the failing-commit path at a concrete input. -/
theorem C3_success_without_live_handle_witness :
    (gsound_context_real_init envCommitFail ctxNoHandle).ret = true ∧
    (gsound_context_real_init envCommitFail ctxNoHandle).state.ca = false ∧
    NativeCall.context_destroy ∈
      (gsound_context_real_init envCommitFail ctxNoHandle).calls :=
  C3_success_without_live_handle envCommitFail ctxNoHandle rfl rfl (by decide)

/-- Claim C4.  Initialization is idempotent: on a context already holding a
live engine handle it returns TRUE immediately, makes no native call (so no
second handle is created), sets no error, and leaves the state unchanged. -/
theorem C4_init_idempotent (env : Env) (self : GSoundContext)
    (h : self.ca = true) :
    gsound_context_real_init env self = ⟨true, none, self, []⟩ := by
  simp [gsound_context_real_init, h]

/-- Claim C4 witness: a second initialization of a live context. -/
theorem C4_init_idempotent_witness :
    gsound_context_real_init envOK ctxLive = ⟨true, none, ctxLive, []⟩ :=
  C4_init_idempotent envOK ctxLive rfl

/-- Claim C5.  When the native completion callback fires with a non-success
code, it resolves the task exactly once, with exactly that code and its
native strerror message, and play_full_finish extracts exactly that
failure. -/
theorem C5_async_failure_code_surfaced (strerror : Int → String) (code : Int)
    (h : code ≠ CA_SUCCESS) :
    on_ca_play_full_finished strerror code =
      [TaskResolution.failure code (strerror code)] ∧
    gsound_context_play_full_finish
      (TaskResolution.failure code (strerror code)) =
      (false, some ⟨code, strerror code⟩) := by
  simp [on_ca_play_full_finished, gsound_context_play_full_finish,
    g_task_propagate_boolean, h]

/-- Claim C5 witness: completion with code -11 (CA_ERROR_CANCELED). -/
theorem C5_async_failure_code_surfaced_witness :
    on_ca_play_full_finished (fun _ => "canceled") (-11) =
      [TaskResolution.failure (-11) "canceled"] ∧
    gsound_context_play_full_finish (TaskResolution.failure (-11) "canceled") =
      (false, some ⟨-11, "canceled"⟩) :=
  C5_async_failure_code_surfaced (fun _ => "canceled") (-11) (by decide)

/-- Claim C6.  Triggering the cancellation token never resolves a pending
play synchronously: an accepted asynchronous play leaves the task pending
(no resolutions), and the cancellation listener only forwards a native
cancel request keyed by the very token the play submitted, delivering no
task resolution of its own. -/
theorem C6_cancellation_is_advisory (env : Env) (self self2 : GSoundContext)
    (c : Nat) (args : List (Option String))
    (h1 : env.proplist_create_res = CA_SUCCESS)
    (h2 : env.play_full_res = CA_SUCCESS) :
    (gsound_context_play_full env self (some c) args).resolutions = [] ∧
    on_cancellable_cancelled self2 c =
      ([NativeCall.context_cancel (g_direct_hash (some c))], []) ∧
    submitted_play_id (gsound_context_play_full env self (some c) args).calls =
      some (g_direct_hash (some c)) := by
  simp [gsound_context_play_full, on_cancellable_cancelled,
    submitted_play_id, h1, h2]

/-- Claim C6 witness: a pending play and its cancellation listener at a
concrete cancellable. -/
theorem C6_cancellation_is_advisory_witness :
    (gsound_context_play_full envOK ctxLive (some 5) []).resolutions = [] ∧
    on_cancellable_cancelled ctxLive 5 =
      ([NativeCall.context_cancel (g_direct_hash (some 5))], []) ∧
    submitted_play_id (gsound_context_play_full envOK ctxLive (some 5) []).calls
      = some (g_direct_hash (some 5)) :=
  C6_cancellation_is_advisory envOK ctxLive ctxLive 5 [] rfl rfl

/-- Claim C7.  The request token is a deterministic function of the
identity of the cancellation object: every play call (simple or full
variant) supplied with cancellable c submits token g_direct_hash(c) to the
native engine, and the cancellation listener passes that same token to the
native cancel call. -/
theorem C7_token_deterministic (env1 env2 : Env) (s1 s2 s3 : GSoundContext)
    (c : Nat) (args : List (Option String)) (attrs : List (String × String))
    (h1 : env1.proplist_create_res = CA_SUCCESS)
    (h2 : env2.proplist_create_res = CA_SUCCESS) :
    submitted_play_id
        (gsound_context_play_simple env1 s1 (some c) args).calls =
      some (g_direct_hash (some c)) ∧
    submitted_play_id
        (gsound_context_play_fullv env2 s2 attrs (some c)).calls =
      some (g_direct_hash (some c)) ∧
    (on_cancellable_cancelled s3 c).1 =
      [NativeCall.context_cancel (g_direct_hash (some c))] := by
  refine ⟨?_, ?_, ?_⟩
  · simp [gsound_context_play_simple, submitted_play_id, h1]
  · by_cases hp : env2.play_full_res = CA_SUCCESS <;>
      simp [gsound_context_play_fullv, submitted_play_id, h2, hp]
  · simp [on_cancellable_cancelled]

/-- Claim C7 witness: two play calls and the listener at one concrete
cancellable agree on the token. -/
theorem C7_token_deterministic_witness :
    submitted_play_id
        (gsound_context_play_simple envOK ctxLive (some 7) []).calls =
      some (g_direct_hash (some 7)) ∧
    submitted_play_id
        (gsound_context_play_fullv envSetsFail ctxLive [] (some 7)).calls =
      some (g_direct_hash (some 7)) ∧
    (on_cancellable_cancelled ctxLive 7).1 =
      [NativeCall.context_cancel (g_direct_hash (some 7))] :=
  C7_token_deterministic envOK envSetsFail ctxLive ctxLive ctxLive 7 [] []
    rfl rfl

/-- Claim C8.  Fire-and-forget play returns TRUE exactly when the native
submission call returned CA_SUCCESS, and registers no completion callback
on the submission it makes. -/
theorem C8_play_simple_fire_and_forget (env : Env) (self : GSoundContext)
    (c : Option Nat) (args : List (Option String))
    (attrs : List (String × String))
    (h : env.proplist_create_res = CA_SUCCESS) :
    ((gsound_context_play_simple env self c args).ret = true ↔
      env.play_full_res = CA_SUCCESS) ∧
    ((gsound_context_play_simplev env self attrs c).ret = true ↔
      env.play_full_res = CA_SUCCESS) ∧
    ¬ has_callback_submission
        (gsound_context_play_simple env self c args).calls ∧
    ¬ has_callback_submission
        (gsound_context_play_simplev env self attrs c).calls := by
  by_cases hp : env.play_full_res = CA_SUCCESS <;>
    simp [gsound_context_play_simple, gsound_context_play_simplev,
      test_return, has_callback_submission, h, hp]

/-- Claim C8 witness: fire-and-forget play at a concrete succeeding
environment. -/
theorem C8_play_simple_fire_and_forget_witness :
    ((gsound_context_play_simple envOK ctxLive none []).ret = true ↔
      envOK.play_full_res = CA_SUCCESS) ∧
    ((gsound_context_play_simplev envOK ctxLive [] none).ret = true ↔
      envOK.play_full_res = CA_SUCCESS) ∧
    ¬ has_callback_submission
        (gsound_context_play_simple envOK ctxLive none []).calls ∧
    ¬ has_callback_submission
        (gsound_context_play_simplev envOK ctxLive [] none).calls :=
  C8_play_simple_fire_and_forget envOK ctxLive none [] [] rfl

/-- Claim C9.  If creating the native engine handle fails, initialization
returns FALSE with the error set to that exact native code and its
strerror message, makes no further native call, and leaves the context
without a live handle. -/
theorem C9_create_failure_leaves_uninitialized (env : Env)
    (self : GSoundContext) (h1 : self.ca = false)
    (h2 : env.context_create_res ≠ CA_SUCCESS) :
    gsound_context_real_init env self =
      ⟨false, some ⟨env.context_create_res,
        env.strerror env.context_create_res⟩, self,
        [NativeCall.context_create]⟩ ∧
    (gsound_context_real_init env self).state.ca = false := by
  simp [gsound_context_real_init, h1, h2]

/-- Claim C9 witness: failing handle creation at a concrete input. -/
theorem C9_create_failure_leaves_uninitialized_witness :
    gsound_context_real_init envCreateFail ctxNoHandle =
      ⟨false, some ⟨envCreateFail.context_create_res,
        envCreateFail.strerror envCreateFail.context_create_res⟩,
        ctxNoHandle, [NativeCall.context_create]⟩ ∧
    (gsound_context_real_init envCreateFail ctxNoHandle).state.ca = false :=
  C9_create_failure_leaves_uninitialized envCreateFail ctxNoHandle rfl
    (by decide)

/-- Claim C10.  The hash-table-based operations perform no local validation
of the attribute map: whatever the per-entry ca_proplist_sets statuses (the
environment quantifies over them, including all-failing ones), construction
yields no local error and each operation invokes its native commit or
submission entry point exactly once with the constructed list. -/
theorem C10_hash_table_ops_always_submit (env : Env) (self : GSoundContext)
    (attrs : List (String × String)) (c : Option Nat)
    (h : env.proplist_create_res = CA_SUCCESS) :
    (gsound_context_change_attrsv env self attrs).calls =
      [NativeCall.context_change_props_full
        (hash_table_to_prop_list env attrs [])] ∧
    (gsound_context_play_simplev env self attrs c).calls =
      [NativeCall.context_play_full (g_direct_hash c)
        (hash_table_to_prop_list env attrs []) false] ∧
    (gsound_context_play_fullv env self attrs c).calls =
      [NativeCall.context_play_full (g_direct_hash c)
        (hash_table_to_prop_list env attrs []) true] ∧
    (gsound_context_cachev env self attrs).calls =
      [NativeCall.context_cache_full
        (hash_table_to_prop_list env attrs [])] := by
  refine ⟨?_, ?_, ?_, ?_⟩
  · simp [gsound_context_change_attrsv, h]
  · simp [gsound_context_play_simplev, h]
  · by_cases hp : env.play_full_res = CA_SUCCESS <;>
      simp [gsound_context_play_fullv, h, hp]
  · simp [gsound_context_cachev, h]

/-- Claim C10 witness: even when every ca_proplist_sets call fails, all
four hash-table operations still invoke their native entry point. -/
theorem C10_hash_table_ops_always_submit_witness :
    (gsound_context_change_attrsv envSetsFail ctxLive [("k", "v")]).calls =
      [NativeCall.context_change_props_full
        (hash_table_to_prop_list envSetsFail [("k", "v")] [])] ∧
    (gsound_context_play_simplev envSetsFail ctxLive [("k", "v")]
        (some 3)).calls =
      [NativeCall.context_play_full (g_direct_hash (some 3))
        (hash_table_to_prop_list envSetsFail [("k", "v")] []) false] ∧
    (gsound_context_play_fullv envSetsFail ctxLive [("k", "v")]
        (some 3)).calls =
      [NativeCall.context_play_full (g_direct_hash (some 3))
        (hash_table_to_prop_list envSetsFail [("k", "v")] []) true] ∧
    (gsound_context_cachev envSetsFail ctxLive [("k", "v")]).calls =
      [NativeCall.context_cache_full
        (hash_table_to_prop_list envSetsFail [("k", "v")] [])] :=
  C10_hash_table_ops_always_submit envSetsFail ctxLive [("k", "v")] (some 3)
    rfl
